import Mathlib

/-!
Verification of the security-analytics detector and detector-rule resource
controllers of the `terraform-provider-opensearch` fork (files
`provider/resource_opensearch_sa_detector.go` and
`provider/resource_opensearch_sa_custom_rule.go`).

The Go code is shallowly embedded: JSON documents become an inductive
`Json` value; HTTP response bodies become a `Body` that is either valid
JSON or malformed text; the elastic client's outcome becomes
`Except String Body` (a transport error message or a body); Go errors
returned by the controllers become the inductive `Err`, whose message
strings are built exactly as the corresponding `fmt.Errorf` calls build
them.  Each controller operation is a pure function from the local
Terraform state and the relevant response(s) to the new state plus an
optional error; a Go panic (index out of range) is modelled as `none` in
an `Option` result.
-/

namespace SaProvider

/-- A JSON document (the dynamic `interface{}` values the Go code passes to
`encoding/json`).  Object fields keep their textual order; Go's
`json.Marshal` sorts map keys, which `goMarshal` below reproduces. -/
inductive Json where
  | null : Json
  | bool (b : Bool) : Json
  | num (n : Int) : Json
  | str (s : String) : Json
  | arr (elems : List Json) : Json
  | obj (fields : List (String × Json)) : Json

mutual

def decEqJson : (a b : Json) → Decidable (a = b)
  | .null, .null => isTrue rfl
  | .bool a, .bool b =>
    if h : a = b then isTrue (by rw [h]) else isFalse (by simp [h])
  | .num a, .num b =>
    if h : a = b then isTrue (by rw [h]) else isFalse (by simp [h])
  | .str a, .str b =>
    if h : a = b then isTrue (by rw [h]) else isFalse (by simp [h])
  | .arr a, .arr b =>
    match decEqJsonList a b with
    | isTrue h => isTrue (by rw [h])
    | isFalse h => isFalse (by simp [h])
  | .obj a, .obj b =>
    match decEqJsonFields a b with
    | isTrue h => isTrue (by rw [h])
    | isFalse h => isFalse (by simp [h])
  | .null, .bool _ => isFalse (fun h => Json.noConfusion h)
  | .null, .num _ => isFalse (fun h => Json.noConfusion h)
  | .null, .str _ => isFalse (fun h => Json.noConfusion h)
  | .null, .arr _ => isFalse (fun h => Json.noConfusion h)
  | .null, .obj _ => isFalse (fun h => Json.noConfusion h)
  | .bool _, .null => isFalse (fun h => Json.noConfusion h)
  | .bool _, .num _ => isFalse (fun h => Json.noConfusion h)
  | .bool _, .str _ => isFalse (fun h => Json.noConfusion h)
  | .bool _, .arr _ => isFalse (fun h => Json.noConfusion h)
  | .bool _, .obj _ => isFalse (fun h => Json.noConfusion h)
  | .num _, .null => isFalse (fun h => Json.noConfusion h)
  | .num _, .bool _ => isFalse (fun h => Json.noConfusion h)
  | .num _, .str _ => isFalse (fun h => Json.noConfusion h)
  | .num _, .arr _ => isFalse (fun h => Json.noConfusion h)
  | .num _, .obj _ => isFalse (fun h => Json.noConfusion h)
  | .str _, .null => isFalse (fun h => Json.noConfusion h)
  | .str _, .bool _ => isFalse (fun h => Json.noConfusion h)
  | .str _, .num _ => isFalse (fun h => Json.noConfusion h)
  | .str _, .arr _ => isFalse (fun h => Json.noConfusion h)
  | .str _, .obj _ => isFalse (fun h => Json.noConfusion h)
  | .arr _, .null => isFalse (fun h => Json.noConfusion h)
  | .arr _, .bool _ => isFalse (fun h => Json.noConfusion h)
  | .arr _, .num _ => isFalse (fun h => Json.noConfusion h)
  | .arr _, .str _ => isFalse (fun h => Json.noConfusion h)
  | .arr _, .obj _ => isFalse (fun h => Json.noConfusion h)
  | .obj _, .null => isFalse (fun h => Json.noConfusion h)
  | .obj _, .bool _ => isFalse (fun h => Json.noConfusion h)
  | .obj _, .num _ => isFalse (fun h => Json.noConfusion h)
  | .obj _, .str _ => isFalse (fun h => Json.noConfusion h)
  | .obj _, .arr _ => isFalse (fun h => Json.noConfusion h)

def decEqJsonList : (a b : List Json) → Decidable (a = b)
  | [], [] => isTrue rfl
  | [], _ :: _ => isFalse (fun h => List.noConfusion h)
  | _ :: _, [] => isFalse (fun h => List.noConfusion h)
  | a :: as, b :: bs =>
    match decEqJson a b, decEqJsonList as bs with
    | isTrue h1, isTrue h2 => isTrue (by rw [h1, h2])
    | isFalse h1, _ => isFalse (by simp [h1])
    | _, isFalse h2 => isFalse (by simp [h2])

def decEqJsonFields : (a b : List (String × Json)) → Decidable (a = b)
  | [], [] => isTrue rfl
  | [], _ :: _ => isFalse (fun h => List.noConfusion h)
  | _ :: _, [] => isFalse (fun h => List.noConfusion h)
  | (k, v) :: as, (k', v') :: bs =>
    match String.decEq k k', decEqJson v v', decEqJsonFields as bs with
    | isTrue h0, isTrue h1, isTrue h2 => isTrue (by rw [h0, h1, h2])
    | isFalse h0, _, _ => isFalse (by simp [h0])
    | _, isFalse h1, _ => isFalse (by simp [h1])
    | _, _, isFalse h2 => isFalse (by simp [h2])

end

instance : DecidableEq Json := decEqJson

/-- Field lookup in a decoded JSON object (Go's `m["k"]` on
`map[string]interface{}`; a missing key yields the nil interface,
modelled as `none`). -/
def jLookup (fields : List (String × Json)) (k : String) : Option Json :=
  match fields with
  | [] => none
  | (k', v) :: rest => if k' = k then some v else jLookup rest k

/-- Byte-order comparison of key strings (the order Go's `sort.Strings`
uses when `encoding/json` emits map keys). -/
def listCharLtb : List Char → List Char → Bool
  | [], [] => false
  | [], _ :: _ => true
  | _ :: _, [] => false
  | a :: as, b :: bs => Nat.blt a.toNat b.toNat || (a == b && listCharLtb as bs)

def strLtb (a b : String) : Bool := listCharLtb a.data b.data

/-- Insert a field into a key-sorted field list (helper for the key
ordering `encoding/json` applies to Go maps). -/
def insertField (p : String × Json) : List (String × Json) → List (String × Json)
  | [] => [p]
  | q :: qs => if strLtb q.1 p.1 then q :: insertField p qs else p :: q :: qs

/-- Sort a field list by key (the order `encoding/json` emits Go map keys in). -/
def sortFieldsByKey : List (String × Json) → List (String × Json)
  | [] => []
  | p :: ps => insertField p (sortFieldsByKey ps)

mutual
/-- Recursively sort every object's fields by key, the canonical form
`json.Marshal` produces for nested `map[string]interface{}` values. -/
def sortKeysRec : Json → Json
  | .null => .null
  | .bool b => .bool b
  | .num n => .num n
  | .str s => .str s
  | .arr l => .arr (sortKeysArr l)
  | .obj fs => .obj (sortFieldsByKey (sortKeysFields fs))

def sortKeysArr : List Json → List Json
  | [] => []
  | v :: vs => sortKeysRec v :: sortKeysArr vs

def sortKeysFields : List (String × Json) → List (String × Json)
  | [] => []
  | (k, v) :: fs => (k, sortKeysRec v) :: sortKeysFields fs
end

/-- JSON string escaping (quotation mark and backslash; the inputs the
claims evaluate contain no control characters). -/
def escChar (c : Char) : List Char :=
  if c = '"' then ['\\', '"']
  else if c = '\\' then ['\\', '\\']
  else [c]

def escapeStr (s : String) : String :=
  ⟨s.data.foldr (fun c acc => escChar c ++ acc) []⟩

def joinComma : List String → String
  | [] => ""
  | [s] => s
  | s :: rest => s ++ "," ++ joinComma rest

mutual
/-- Serialize a `Json` value the way `encoding/json` renders it (compact,
no added whitespace).  Key sorting is applied separately by `goMarshal`. -/
def jsonToString : Json → String
  | .null => "null"
  | .bool true => "true"
  | .bool false => "false"
  | .num n => toString n
  | .str s => "\"" ++ escapeStr s ++ "\""
  | .arr l => "[" ++ joinComma (jsonArrStrings l) ++ "]"
  | .obj fs => "\x7b" ++ joinComma (jsonObjStrings fs) ++ "\x7d"

def jsonArrStrings : List Json → List String
  | [] => []
  | v :: vs => jsonToString v :: jsonArrStrings vs

def jsonObjStrings : List (String × Json) → List String
  | [] => []
  | (k, v) :: fs => ("\"" ++ escapeStr k ++ "\":" ++ jsonToString v) :: jsonObjStrings fs
end

/-- Go's `json.Marshal` on dynamic values: emit objects with keys sorted. -/
def goMarshal (v : Json) : String := jsonToString (sortKeysRec v)

/-- An HTTP response body (`res.Body`, a `json.RawMessage`): either text
that is not valid JSON — carrying the raw text and the message of the
`encoding/json` error produced when decoding it — or a parsed JSON value. -/
inductive Body where
  | malformed (text : String) (errMsg : String) : Body
  | json (v : Json) : Body
deriving DecidableEq

/-- The raw text of a body, as it would be interpolated into an error
message (`%+v` on the `json.RawMessage`; Go renders the byte slice
numerically, an encoding detail abstracted to the text itself here). -/
def Body.text : Body → String
  | .malformed t _ => t
  | .json v => goMarshal v

/-- Errors returned by the controllers.  Go's untyped `error` values are
distinguished here by their construction site; each constructor carries
the message string exactly as the corresponding `fmt.Errorf` builds it. -/
inductive Err where
  | transport (msg : String) : Err
  | decode (msg : String) : Err
  | notFound (msg : String) : Err
deriving DecidableEq

/-- The message of an error. -/
def Err.msg : Err → String
  | .transport m => m
  | .decode m => m
  | .notFound m => m

/-- Modelled from the spec: the `IsSearchNotFound` predicate is defined
outside the two embedded files.  Per the spec, NotFound (zero search hits)
is "a distinguished condition, not a generic error", recognized by
inspecting the error's shape, and transport/parse errors are never
NotFound; it holds exactly of the errors the searches construct at their
zero-hit site. -/
def IsSearchNotFound : Err → Bool
  | .notFound _ => true
  | _ => false

/-! ### The search response envelope

The Go type `querySearchResult` is declared outside the two embedded
files; its shape is modelled from the spec ("standard search-hits wrapper
with `hits.total.value`, and per-hit `_id`, `_version`, `_source`") and
from how the embedded code accesses it (`Hits.Total.Value`,
`Hits.Hits[0].ID/.Version/.Source`). -/

/-- Modelled from the spec: one element of `hits.hits`.  `Source` is a
`json.RawMessage`: the raw `_source` subtree, `none` when the field is
absent (a nil `RawMessage`). -/
structure SearchHit where
  ID : String
  Version : Int
  Source : Option Json
deriving DecidableEq

/-- Modelled from the spec: the `hits.total` object. -/
structure HitsTotal where
  Value : Int
deriving DecidableEq

/-- Modelled from the spec: the `hits` wrapper. -/
structure HitsEnvelope where
  Total : HitsTotal
  Hits : List SearchHit
deriving DecidableEq

/-- Modelled from the spec: the search response envelope
(`querySearchResult`). -/
structure QuerySearchResult where
  Hits : HitsEnvelope
deriving DecidableEq

/-- Decode one hit, following `encoding/json` unmarshalling into the
`querySearchResult` struct: missing fields keep their zero value, a field
of the wrong JSON type is an unmarshal error, unknown fields are ignored. -/
def decodeHit : Json → Except String SearchHit
  | .obj fs => do
    let id ← match jLookup fs "_id" with
      | none => pure ""
      | some (.str s) => pure s
      | some _ => throw "json: cannot unmarshal value into Go struct field ._id of type string"
    let ver ← match jLookup fs "_version" with
      | none => pure 0
      | some (.num n) => pure n
      | some _ => throw "json: cannot unmarshal value into Go struct field ._version of type int"
    pure { ID := id, Version := ver, Source := jLookup fs "_source" }
  | _ => throw "json: cannot unmarshal value into Go value of type struct"

def decodeHitList : List Json → Except String (List SearchHit)
  | [] => pure []
  | v :: vs => do
    let h ← decodeHit v
    let rest ← decodeHitList vs
    pure (h :: rest)

/-- Decode the `hits.total` object. -/
def decodeTotal : Option Json → Except String HitsTotal
  | none => pure ⟨0⟩
  | some (.obj fs) =>
    match jLookup fs "value" with
    | none => pure ⟨0⟩
    | some (.num n) => pure ⟨n⟩
    | some _ => throw "json: cannot unmarshal value into Go struct field .value of type int"
  | some _ => throw "json: cannot unmarshal value into Go struct field .total of type struct"

/-- Decode the whole search envelope (`json.Unmarshal(res.Body, &searchResult)`
on a body that is valid JSON). -/
def decodeQSR : Json → Except String QuerySearchResult
  | .obj fs =>
    match jLookup fs "hits" with
    | none => pure ⟨⟨⟨0⟩, []⟩⟩
    | some (.obj hf) => do
      let total ← decodeTotal (jLookup hf "total")
      let hits ← match jLookup hf "hits" with
        | none => pure []
        | some (.arr l) => decodeHitList l
        | some _ => throw "json: cannot unmarshal value into Go struct field .hits of type slice"
      pure ⟨⟨total, hits⟩⟩
    | some _ => throw "json: cannot unmarshal value into Go struct field .hits of type struct"
  | _ => throw "json: cannot unmarshal value into Go value of type provider.querySearchResult"

/-- `json.Unmarshal(res.Body, &searchResult)`: a malformed body yields the
decoding error itself; valid JSON is decoded per `decodeQSR`. -/
def goUnmarshalSearch : Body → Except String QuerySearchResult
  | .malformed _ e => throw e
  | .json v => decodeQSR v

/-- `json.Unmarshal(hit.Source, &m)` into a `map[string]interface{}`:
a nil `RawMessage` (absent `_source`) is a syntax error; JSON `null`
leaves the map nil (no error); a non-object is a type error. -/
def unmarshalObj : Option Json → Except String (List (String × Json))
  | none => throw "unexpected end of JSON input"
  | some .null => pure []
  | some (.obj fs) => pure fs
  | some _ => throw "json: cannot unmarshal value into Go value of type map[string]interface \x7b\x7d"

/-- Modelled from the spec: `normalizeSaDetector` is declared outside the
embedded files.  The spec describes it as an in-place pass over the
detector map that makes server-added defaulted fields comparable to the
user's input, at minimum canonicalizing key ordering; it is modelled as
key sorting of the map and, in particular, it does not unwrap, extract or
replace any sub-field. -/
def normalizeSaDetector (m : List (String × Json)) : List (String × Json) :=
  sortFieldsByKey m

/-! ### Create/update response envelopes (`SaDetectorResponse`,
`SaDetectorRuleResponse`, declared at the bottom of the two source files). -/

/-- `SaDetectorResponse`: `_version`, `_id`, `detector` (a generic map). -/
structure SaDetectorResponse where
  Version : Int
  ID : String
  Detector : List (String × Json)
deriving DecidableEq

/-- `SaDetectorRuleResponse`: `_version`, `_id`, `rule` (a generic map). -/
structure SaDetectorRuleResponse where
  Version : Int
  ID : String
  Rule : List (String × Json)
deriving DecidableEq

/-- Decode a create/update response body's JSON into the response struct
(shared shape of `SaDetectorResponse`/`SaDetectorRuleResponse`; `field`
is the struct's object-valued tag, `"detector"` or `"rule"`). -/
def decodeRespWith (field : String) : Json → Except String (Int × String × List (String × Json))
  | .obj fs => do
    let ver ← match jLookup fs "_version" with
      | none => pure 0
      | some (.num n) => pure n
      | some _ => throw "json: cannot unmarshal value into Go struct field ._version of type int"
    let id ← match jLookup fs "_id" with
      | none => pure ""
      | some (.str s) => pure s
      | some _ => throw "json: cannot unmarshal value into Go struct field ._id of type string"
    let m ← match jLookup fs field with
      | none => pure []
      | some .null => pure []
      | some (.obj mf) => pure mf
      | some _ => throw ("json: cannot unmarshal value into Go struct field ." ++ field ++ " of type map[string]interface \x7b\x7d")
    pure (ver, id, m)
  | _ => throw "json: cannot unmarshal value into Go value of type struct"

instance {ε α : Type} [DecidableEq ε] [DecidableEq α] : DecidableEq (Except ε α)
  | .error e, .error e' =>
    if h : e = e' then isTrue (by rw [h]) else isFalse (by simp [h])
  | .error _, .ok _ => isFalse (fun h => Except.noConfusion h)
  | .ok _, .error _ => isFalse (fun h => Except.noConfusion h)
  | .ok a, .ok a' =>
    if h : a = a' then isTrue (by rw [h]) else isFalse (by simp [h])

/-! ### The search-by-id lookups

`resourceOpensearchSaDetectorSearch` and `resourceOpensearchSaDetectorRuleGet`.
The transport outcome of `osClient.PerformRequest` is a parameter:
`.error msg` is a transport error, `.ok body` a response body.  The outer
`Option` models the Go runtime: `none` is the index-out-of-range panic at
`searchResult.Hits.Hits[0]`. -/

/-- `resourceOpensearchSaDetectorSearch` (detector file, lines 131-189). -/
def saDetectorSearch (SaDetectorID : String) (resp : Except String Body) :
    Option (Except Err SaDetectorResponse) :=
  match resp with
  | .error msg => some (.error (.transport msg))
  | .ok b =>
    match goUnmarshalSearch b with
    | .error e => some (.error (.decode ("error unmarshalling search result: " ++ e)))
    | .ok searchResult =>
      if searchResult.Hits.Total.Value = 0 then
        some (.error (.notFound ("no search results found for ID: " ++ SaDetectorID)))
      else
        match searchResult.Hits.Hits with
        | [] => none
        | hit :: _ =>
          match unmarshalObj hit.Source with
          | .error e => some (.error (.decode ("error unmarshalling detector source: " ++ e)))
          | .ok detector =>
            some (.ok { ID := hit.ID, Version := hit.Version,
                        Detector := normalizeSaDetector detector })

/-- `resourceOpensearchSaDetectorRuleGet` (rule file, lines 83-140). -/
def saDetectorRuleGet (SaDetectorRuleID : String) (resp : Except String Body) :
    Option (Except Err SaDetectorRuleResponse) :=
  match resp with
  | .error msg => some (.error (.transport msg))
  | .ok b =>
    match goUnmarshalSearch b with
    | .error e => some (.error (.decode ("error unmarshalling search result: " ++ e)))
    | .ok searchResult =>
      if searchResult.Hits.Total.Value = 0 then
        some (.error (.notFound ("no search results found for ID: " ++ SaDetectorRuleID)))
      else
        match searchResult.Hits.Hits with
        | [] => none
        | hit :: _ =>
          match unmarshalObj hit.Source with
          | .error e => some (.error (.decode ("error unmarshalling rule source: " ++ e)))
          | .ok rule =>
            some (.ok { ID := hit.ID, Version := hit.Version, Rule := rule })

/-! ### Local Terraform state and the controller operations -/

/-- The detector resource's local state: `d.Id()` and the `body` attribute. -/
structure DetectorState where
  id : String
  body : String
deriving DecidableEq

/-- The rule resource's local state: `d.Id()`, the `body` attribute (the
dynamic value handed to `d.Set`, `none` for a Go nil interface), and the
`category` attribute. -/
structure RuleState where
  id : String
  body : Option Json
  category : String
deriving DecidableEq

/-- `resourceOpensearchPostSaDetector` (lines 191-220): POST outcome to
response; on decode failure the error message interpolates the body. -/
def resourceOpensearchPostSaDetector (resp : Except String Body) :
    Except Err SaDetectorResponse :=
  match resp with
  | .error msg => .error (.transport msg)
  | .ok b =>
    match (match b with | .malformed _ e => Except.error e | .json v => decodeRespWith "detector" v) with
    | .error e =>
      .error (.decode ("error unmarshalling detector body: " ++ e ++ ": " ++ b.text))
    | .ok (ver, id, m) =>
      .ok { Version := ver, ID := id, Detector := normalizeSaDetector m }

/-- `resourceOpensearchPutSaDetector` (lines 222-256): PUT outcome to
response (no normalization on this path). -/
def resourceOpensearchPutSaDetector (resp : Except String Body) :
    Except Err SaDetectorResponse :=
  match resp with
  | .error msg => .error (.transport msg)
  | .ok b =>
    match (match b with | .malformed _ e => Except.error e | .json v => decodeRespWith "detector" v) with
    | .error e =>
      .error (.decode ("error unmarshalling detector body: " ++ e ++ ": " ++ b.text))
    | .ok (ver, id, m) => .ok { Version := ver, ID := id, Detector := m }

/-- `resourceOpensearchPostSaDetectorRule` (rule file, lines 142-177). -/
def resourceOpensearchPostSaDetectorRule (resp : Except String Body) :
    Except Err SaDetectorRuleResponse :=
  match resp with
  | .error msg => .error (.transport msg)
  | .ok b =>
    match (match b with | .malformed _ e => Except.error e | .json v => decodeRespWith "rule" v) with
    | .error e =>
      .error (.decode ("error unmarshalling detector rule body: " ++ e ++ ": " ++ b.text))
    | .ok (ver, id, m) => .ok { Version := ver, ID := id, Rule := m }

/-- `resourceOpensearchPutSaDetectorRule` (rule file, lines 179-216). -/
def resourceOpensearchPutSaDetectorRule (resp : Except String Body) :
    Except Err SaDetectorRuleResponse :=
  match resp with
  | .error msg => .error (.transport msg)
  | .ok b =>
    match (match b with | .malformed _ e => Except.error e | .json v => decodeRespWith "rule" v) with
    | .error e =>
      .error (.decode ("error unmarshalling detector rule body: " ++ e ++ ": " ++ b.text))
    | .ok (ver, id, m) => .ok { Version := ver, ID := id, Rule := m }

/-- `resourceOpensearchSaDetectorRead` (lines 58-83): on a NotFound lookup
error clear the ID and succeed; on any other error return it unchanged;
on success store the hit's ID and the normalized marshalled detector as
`body`. -/
def saDetectorRead (st : DetectorState) (resp : Except String Body) :
    Option (DetectorState × Option Err) :=
  match saDetectorSearch st.id resp with
  | none => none
  | some (.error e) =>
    if IsSearchNotFound e then some ({ st with id := "" }, none)
    else some (st, some e)
  | some (.ok res) =>
    some ({ st with id := res.ID, body := goMarshal (.obj res.Detector) }, none)

/-- `resourceOpensearchSaDetectorCreate` (lines 44-56): POST, then on
success `d.SetId(res.ID)` followed by the read-back. -/
def saDetectorCreate (st : DetectorState) (postResp : Except String Body)
    (searchResp : Except String Body) : Option (DetectorState × Option Err) :=
  match resourceOpensearchPostSaDetector postResp with
  | .error e => some (st, some e)
  | .ok res => saDetectorRead { st with id := res.ID } searchResp

/-- `resourceOpensearchSaDetectorUpdate` (lines 85-93): PUT, then on
success the read-back. -/
def saDetectorUpdate (st : DetectorState) (putResp : Except String Body)
    (searchResp : Except String Body) : Option (DetectorState × Option Err) :=
  match resourceOpensearchPutSaDetector putResp with
  | .error e => some (st, some e)
  | .ok _ => saDetectorRead st searchResp

/-- `resourceOpensearchSaDetectorRuleRead` (rule file, lines 56-71): like
the detector Read, but `body` is set to the single field `rule["rule"]`
of the returned source object. -/
def saDetectorRuleRead (st : RuleState) (resp : Except String Body) :
    Option (RuleState × Option Err) :=
  match saDetectorRuleGet st.id resp with
  | none => none
  | some (.error e) =>
    if IsSearchNotFound e then some ({ st with id := "" }, none)
    else some (st, some e)
  | some (.ok res) =>
    some ({ st with id := res.ID, body := jLookup res.Rule "rule" }, none)

/-- `resourceOpensearchSaDetectorRuleCreate` (rule file, lines 42-54). -/
def saDetectorRuleCreate (st : RuleState) (postResp : Except String Body)
    (searchResp : Except String Body) : Option (RuleState × Option Err) :=
  match resourceOpensearchPostSaDetectorRule postResp with
  | .error e => some (st, some e)
  | .ok res => saDetectorRuleRead { st with id := res.ID } searchResp

/-- `resourceOpensearchSaDetectorRuleUpdate` (rule file, lines 73-81). -/
def saDetectorRuleUpdate (st : RuleState) (putResp : Except String Body)
    (searchResp : Except String Body) : Option (RuleState × Option Err) :=
  match resourceOpensearchPutSaDetectorRule putResp with
  | .error e => some (st, some e)
  | .ok _ => saDetectorRuleRead st searchResp

/-! ### Request construction -/

/-- An HTTP request as handed to `osClient.PerformRequest`. -/
structure Request where
  method : String
  path : String
  body : String
deriving DecidableEq

/-- The search query both lookups build (the Go map literal
`map[string]interface{}{"size": 1, "query": {"ids": {"values": [ID]}}}`). -/
def searchQuery (id : String) : Json :=
  .obj [("size", .num 1),
        ("query", .obj [("ids", .obj [("values", .arr [.str id])])])]

/-- The detector lookup's request (`POST` of the marshalled query to the
detector search endpoint, lines 135-161 of the detector file). -/
def detectorSearchRequest (id : String) : Request :=
  { method := "POST",
    path := "/_plugins/_security_analytics/detectors/_search",
    body := goMarshal (searchQuery id) }

/-- The rule lookup's request (rule file, lines 87-113). -/
def ruleSearchRequest (id : String) : Request :=
  { method := "POST",
    path := "/_plugins/_security_analytics/rules/_search?pre_packaged=false",
    body := goMarshal (searchQuery id) }

/-- RFC 3986 unreserved characters, the set `uritemplates.Expand` leaves
unescaped in a simple `\x7bname\x7d` expansion. -/
def isUnreserved (c : Char) : Bool :=
  c.isAlphanum || c = '-' || c = '.' || c = '_' || c = '~'

def hexDigit (n : Nat) : Char :=
  if n < 10 then Char.ofNat (48 + n) else Char.ofNat (55 + n)

/-- Percent-encode one UTF-8 byte. -/
def pctByte (b : Nat) : List Char :=
  ['%', hexDigit (b / 16), hexDigit (b % 16)]

/-- The UTF-8 bytes of a character. -/
def utf8Bytes (c : Char) : List Nat :=
  let n := c.toNat
  if n < 128 then [n]
  else if n < 2048 then [192 + n / 64, 128 + n % 64]
  else if n < 65536 then [224 + n / 4096, 128 + (n / 64) % 64, 128 + n % 64]
  else [240 + n / 262144, 128 + (n / 4096) % 64, 128 + (n / 64) % 64, 128 + n % 64]

def pctEncodeChar (c : Char) : List Char :=
  if isUnreserved c then [c]
  else (utf8Bytes c).foldr (fun b acc => pctByte b ++ acc) []

/-- The escaping `uritemplates.Expand` applies to an expanded value. -/
def pctEncode (s : String) : String :=
  ⟨s.data.foldr (fun c acc => pctEncodeChar c ++ acc) []⟩

/-- One piece of a URI template: a literal run, or a `\x7bname\x7d`
expression whose expansion is percent-encoded. -/
inductive TPart where
  | lit (s : String) : TPart
  | vr (name : String) : TPart
deriving DecidableEq

/-- `uritemplates.Expand`: substitute each variable (percent-encoded) and
concatenate.  For the literal templates used in this code expansion never
fails, so the Go `(string, error)` pair is just the string. -/
def expand (t : List TPart) (vars : List (String × String)) : String :=
  match t with
  | [] => ""
  | .lit s :: rest => s ++ expand rest vars
  | .vr n :: rest =>
    (match vars.lookup n with
     | some v => pctEncode v
     | none => "") ++ expand rest vars

/-- The template `"/_plugins/_security_analytics/rules?category=\x7bcategory\x7d"`
of `resourceOpensearchPostSaDetectorRule` (rule file, line 149). -/
def rulePostTemplate : List TPart :=
  [.lit "/_plugins/_security_analytics/rules?category=", .vr "category"]

/-- The template `"/_plugins/_security_analytics/rules/\x7bid\x7d?category=\x7bcategory\x7d&forced=true"`
of `resourceOpensearchPutSaDetectorRule` (rule file, line 186). -/
def rulePutTemplate : List TPart :=
  [.lit "/_plugins/_security_analytics/rules/", .vr "id",
   .lit "?category=", .vr "category", .lit "&forced=true"]

/-- The template `"/_plugins/_security_analytics/rules/\x7bid\x7d?forced=true"`
of `resourceOpensearchSaDetectorRuleDelete` (rule file, line 221). -/
def ruleDeleteTemplate : List TPart :=
  [.lit "/_plugins/_security_analytics/rules/", .vr "id", .lit "?forced=true"]

/-- The rule Create request (rule file, lines 142-167): POST of the raw
configured body to the expanded create path. -/
def rulePostRequest (st : RuleState) (bodyText : String) : Request :=
  { method := "POST",
    path := expand rulePostTemplate [("category", st.category)],
    body := bodyText }

/-- The rule Update request (rule file, lines 179-205). -/
def rulePutRequest (st : RuleState) (bodyText : String) : Request :=
  { method := "PUT",
    path := expand rulePutTemplate [("id", st.id), ("category", st.category)],
    body := bodyText }

/-- The rule Delete request (rule file, lines 218-239). -/
def ruleDeleteRequest (st : RuleState) : Request :=
  { method := "DELETE",
    path := expand ruleDeleteTemplate [("id", st.id)],
    body := "" }

/-! ### String containment (used to state whether an error message carries
the offending response body) -/

def listPrefixOf : List Char → List Char → Bool
  | [], _ => true
  | _ :: _, [] => false
  | a :: as, b :: bs => a == b && listPrefixOf as bs

def listInfixOf (n : List Char) : List Char → Bool
  | [] => listPrefixOf n []
  | c :: rest => listPrefixOf n (c :: rest) || listInfixOf n rest

/-- `needle` occurs contiguously inside `hay`. -/
def strIncludes (needle hay : String) : Bool :=
  listInfixOf needle.data hay.data

theorem strDataAppend (a b : String) : (a ++ b).data = a.data ++ b.data := by
  cases a; cases b; rfl

theorem strAppendAssoc (a b c : String) : (a ++ b) ++ c = a ++ (b ++ c) := by
  cases a; cases b; cases c
  show String.mk _ = String.mk _
  rw [List.append_assoc]

theorem listPrefixOf_self_append (n s : List Char) :
    listPrefixOf n (n ++ s) = true := by
  induction n with
  | nil => rfl
  | cons a as ih => simp [listPrefixOf, ih]

theorem listInfixOf_of_prefixOf (n hay : List Char)
    (h : listPrefixOf n hay = true) : listInfixOf n hay = true := by
  cases hay <;> simp [listInfixOf, h]

theorem listInfixOf_append (n p s : List Char) :
    listInfixOf n (p ++ (n ++ s)) = true := by
  induction p with
  | nil => exact listInfixOf_of_prefixOf n (n ++ s) (listPrefixOf_self_append n s)
  | cons c cs ih => simp [listInfixOf, ih]

/-- A string occurs in any concatenation that ends with it after three
prefixes (the shape of the decode-error messages that interpolate the
response body last). -/
theorem strIncludes_tail3 (a e c t : String) :
    strIncludes t (a ++ e ++ c ++ t) = true := by
  show listInfixOf t.data (a ++ e ++ c ++ t).data = true
  have hd : (a ++ e ++ c ++ t).data
      = (a.data ++ (e.data ++ c.data)) ++ (t.data ++ []) := by
    simp [strDataAppend, List.append_assoc]
  rw [hd]
  exact listInfixOf_append t.data (a.data ++ (e.data ++ c.data)) []

end SaProvider

namespace SaProvider

/-! ### Concrete response bodies used by witnesses and counterexamples -/

/-- A search response with zero hits
(`\x7b"hits":\x7b"total":\x7b"value":0\x7d,"hits":[]\x7d\x7d`). -/
def zeroHitBody : Body :=
  .json (.obj [("hits", .obj [("total", .obj [("value", .num 0)]), ("hits", .arr [])])])

/-- A search response whose single hit's `_source` wraps the detector
under a `detector` key next to another field. -/
def c5SourceObj : Json :=
  .obj [("detector", .obj [("name", .str "t1")]), ("extra", .num 1)]

def c5Hit : Json :=
  .obj [("_id", .str "abc"), ("_version", .num 2), ("_source", c5SourceObj)]

def c5Resp : Body :=
  .json (.obj [("hits", .obj [("total", .obj [("value", .num 1)]), ("hits", .arr [c5Hit])])])

/-- A rule search response with one hit whose source carries a `rule` field. -/
def ruleHitResp : Body :=
  .json (.obj [("hits", .obj [("total", .obj [("value", .num 1)]),
    ("hits", .arr [.obj [("_id", .str "r1"), ("_version", .num 4),
      ("_source", .obj [("rule", .str "title: t"), ("category", .str "cloudtrail")])]])])])

/-- A successful create response for a detector. -/
def c6PostBody : Body :=
  .json (.obj [("_id", .str "abc123"), ("_version", .num 1),
               ("detector", .obj [("name", .str "t1")])])

/-- A successful create response for a rule. -/
def rulePostBody : Body :=
  .json (.obj [("_id", .str "r9"), ("_version", .num 1),
               ("rule", .obj [("rule", .str "title: t")])])

/-- A search response violating the hit-count precondition: a non-zero
total but an empty hits array. -/
def panicBody : Body :=
  .json (.obj [("hits", .obj [("total", .obj [("value", .num 3)]), ("hits", .arr [])])])

/-- A malformed (non-JSON) response body. -/
def c7Bad : Body := .malformed "RAWBODY" "invalid character"

/-- A search response with one hit whose `_source` is not a JSON object,
so unmarshalling it into a map fails. -/
def badSourceResp : Body :=
  .json (.obj [("hits", .obj [("total", .obj [("value", .num 1)]),
    ("hits", .arr [.obj [("_id", .str "h1"), ("_version", .num 1),
                         ("_source", .str "nope")]])])])

/-- The claim's detector extraction, following the spec's words ("unmarshal
the relevant sub-field (`detector` ...)"): take the `detector` sub-field
of the source object as the generic JSON object.  Stated for comparison
with what `saDetectorSearch` actually extracts. -/
def specDetectorSubfieldExtract (source : Json) : Option (List (String × Json)) :=
  match source with
  | .obj fs =>
    match jLookup fs "detector" with
    | some (.obj dfs) => some dfs
    | _ => none
  | _ => none

theorem strAppendEmpty (a : String) : a ++ "" = a := by
  cases a
  show String.mk _ = String.mk _
  rw [List.append_nil]

/-! ## The claims -/

/-- Claim C1: for both resource kinds, when Read's search-by-id lookup
fails with an error satisfying the NotFound predicate, Read clears the
local ID (empty string) and returns success (no error); for every lookup
error not satisfying the predicate, Read returns that error unchanged and
leaves the local state (ID included) unmodified. -/
theorem claim_C1_read_notfound_behavior :
    (∀ (st : DetectorState) (resp : Except String Body) (e : Err),
      saDetectorSearch st.id resp = some (.error e) →
        (IsSearchNotFound e = true →
          saDetectorRead st resp = some ({ st with id := "" }, none)) ∧
        (IsSearchNotFound e = false →
          saDetectorRead st resp = some (st, some e))) ∧
    (∀ (st : RuleState) (resp : Except String Body) (e : Err),
      saDetectorRuleGet st.id resp = some (.error e) →
        (IsSearchNotFound e = true →
          saDetectorRuleRead st resp = some ({ st with id := "" }, none)) ∧
        (IsSearchNotFound e = false →
          saDetectorRuleRead st resp = some (st, some e))) := by
  constructor
  · intro st resp e h
    exact ⟨fun hnf => by simp [saDetectorRead, h, hnf],
           fun hnf => by simp [saDetectorRead, h, hnf]⟩
  · intro st resp e h
    exact ⟨fun hnf => by simp [saDetectorRuleRead, h, hnf],
           fun hnf => by simp [saDetectorRuleRead, h, hnf]⟩

theorem claim_C1_witness :
    saDetectorRead ⟨"xyz", "b"⟩ (.ok zeroHitBody) = some (⟨"", "b"⟩, none) ∧
    saDetectorRuleRead ⟨"xyz", none, "c"⟩ (.error "boom") =
      some (⟨"xyz", none, "c"⟩, some (.transport "boom")) := by
  constructor
  · exact (claim_C1_read_notfound_behavior.1 ⟨"xyz", "b"⟩ (.ok zeroHitBody)
      (.notFound ("no search results found for ID: " ++ "xyz")) (by decide)).1 (by decide)
  · exact (claim_C1_read_notfound_behavior.2 ⟨"xyz", none, "c"⟩ (.error "boom")
      (.transport "boom") (by decide)).2 (by decide)

/-- Claim C2: for both lookups, a search response whose hit count
(`hits.total.value`) is zero makes the lookup fail with the NotFound
error, which the NotFound predicate accepts, while transport errors and
decode errors never satisfy the predicate. -/
theorem claim_C2_zero_hits_notfound :
    (∀ (id : String) (b : Body) (sr : QuerySearchResult),
      goUnmarshalSearch b = .ok sr →
      sr.Hits.Total.Value = 0 →
        saDetectorSearch id (.ok b) =
          some (.error (.notFound ("no search results found for ID: " ++ id))) ∧
        saDetectorRuleGet id (.ok b) =
          some (.error (.notFound ("no search results found for ID: " ++ id))) ∧
        IsSearchNotFound (.notFound ("no search results found for ID: " ++ id)) = true) ∧
    (∀ m, IsSearchNotFound (.transport m) = false ∧ IsSearchNotFound (.decode m) = false) := by
  constructor
  · intro id b sr h h0
    exact ⟨by simp [saDetectorSearch, h, h0], by simp [saDetectorRuleGet, h, h0], rfl⟩
  · exact fun m => ⟨rfl, rfl⟩

theorem claim_C2_witness :
    saDetectorSearch "xyz" (.ok zeroHitBody) =
      some (.error (.notFound ("no search results found for ID: " ++ "xyz"))) ∧
    saDetectorRuleGet "xyz" (.ok zeroHitBody) =
      some (.error (.notFound ("no search results found for ID: " ++ "xyz"))) ∧
    IsSearchNotFound (.notFound ("no search results found for ID: " ++ "xyz")) = true :=
  claim_C2_zero_hits_notfound.1 "xyz" zeroHitBody ⟨⟨⟨0⟩, []⟩⟩ (by decide) (by decide)

/-- Claim C3: both lookups POST the marshalled JSON query
`\x7b"size":1,"query":\x7b"ids":\x7b"values":[ID]\x7d\x7d\x7d` to their
kind-specific endpoint.  (`json.Marshal` emits Go map keys sorted, so the
wire text of this document lists `query` before `size`; it is the same
JSON document.) -/
theorem claim_C3_search_requests (id : String) :
    detectorSearchRequest id =
      { method := "POST",
        path := "/_plugins/_security_analytics/detectors/_search",
        body := goMarshal (.obj [("size", .num 1),
                  ("query", .obj [("ids", .obj [("values", .arr [.str id])])])]) } ∧
    ruleSearchRequest id =
      { method := "POST",
        path := "/_plugins/_security_analytics/rules/_search?pre_packaged=false",
        body := goMarshal (.obj [("size", .num 1),
                  ("query", .obj [("ids", .obj [("values", .arr [.str id])])])]) } :=
  ⟨rfl, rfl⟩

/-- Claim C4: the rule Update PUT always targets
`/_plugins/_security_analytics/rules/ID?category=CAT&forced=true`, the
rule Delete DELETE always targets
`/_plugins/_security_analytics/rules/ID?forced=true`, and the rule
Create POST targets `/_plugins/_security_analytics/rules?category=CAT`
(exactly `...?category=cloudtrail` for category `cloudtrail`). -/
theorem claim_C4_rule_paths :
    (∀ (st : RuleState) (bt : String),
      (rulePutRequest st bt).method = "PUT" ∧
      (rulePutRequest st bt).path =
        "/_plugins/_security_analytics/rules/" ++ pctEncode st.id ++ "?category="
          ++ pctEncode st.category ++ "&forced=true") ∧
    (∀ st : RuleState,
      (ruleDeleteRequest st).method = "DELETE" ∧
      (ruleDeleteRequest st).path =
        "/_plugins/_security_analytics/rules/" ++ pctEncode st.id ++ "?forced=true") ∧
    (∀ (st : RuleState) (bt : String),
      (rulePostRequest st bt).method = "POST" ∧
      (rulePostRequest st bt).path =
        "/_plugins/_security_analytics/rules?category=" ++ pctEncode st.category) ∧
    (∀ (id : String) (b : Option Json) (bt : String),
      (rulePostRequest ⟨id, b, "cloudtrail"⟩ bt).path =
        "/_plugins/_security_analytics/rules?category=cloudtrail") := by
  refine ⟨fun st bt => ⟨rfl, ?_⟩, fun st => ⟨rfl, ?_⟩, fun st bt => ⟨rfl, ?_⟩, ?_⟩
  · simp [rulePutRequest, expand, rulePutTemplate, List.lookup, strAppendAssoc, strAppendEmpty]
  · simp [ruleDeleteRequest, expand, ruleDeleteTemplate, List.lookup, strAppendAssoc, strAppendEmpty]
  · simp [rulePostRequest, expand, rulePostTemplate, List.lookup, strAppendAssoc, strAppendEmpty]
  · intro id b bt
    show expand rulePostTemplate [("category", "cloudtrail")] = _
    decide

/-- Claim C5 counterexample: on a hit whose `_source` is
`\x7b"detector":\x7b"name":"t1"\x7d,"extra":1\x7d`, the detector lookup
returns the whole unmarshalled source object, not the `detector`
sub-field the claim describes (`specDetectorSubfieldExtract`, the claim's
reading, would return the inner object). -/
theorem claim_C5_counterexample :
    saDetectorSearch "abc" (.ok c5Resp) =
      some (.ok { Version := 2, ID := "abc",
                  Detector := [("detector", .obj [("name", .str "t1")]),
                               ("extra", .num 1)] }) ∧
    specDetectorSubfieldExtract c5SourceObj = some [("name", .str "t1")] ∧
    saDetectorSearch "abc" (.ok c5Resp) ≠
      some (.ok { Version := 2, ID := "abc",
                  Detector := [("name", .str "t1")] }) :=
  ⟨by decide, by decide, by decide⟩

/-- Claim C5 as amended: on a search hit both lookups extract the hit's
`_id` and `_version` and unwrap exactly one `_source` level, then
unmarshal the WHOLE source document into the generic JSON object (the
detector lookup additionally normalizes it); neither extracts a
`detector` sub-field. -/
theorem claim_C5_amended :
    (∀ (id : String) (b : Body) (sr : QuerySearchResult) (hit : SearchHit)
       (rest : List SearchHit) (fs : List (String × Json)),
      goUnmarshalSearch b = .ok sr →
      sr.Hits.Total.Value ≠ 0 →
      sr.Hits.Hits = hit :: rest →
      unmarshalObj hit.Source = .ok fs →
        saDetectorSearch id (.ok b) =
          some (.ok { Version := hit.Version, ID := hit.ID,
                      Detector := normalizeSaDetector fs })) ∧
    (∀ (id : String) (b : Body) (sr : QuerySearchResult) (hit : SearchHit)
       (rest : List SearchHit) (fs : List (String × Json)),
      goUnmarshalSearch b = .ok sr →
      sr.Hits.Total.Value ≠ 0 →
      sr.Hits.Hits = hit :: rest →
      unmarshalObj hit.Source = .ok fs →
        saDetectorRuleGet id (.ok b) =
          some (.ok { Version := hit.Version, ID := hit.ID, Rule := fs })) := by
  constructor
  · intro id b sr hit rest fs h h0 hh hsrc
    simp [saDetectorSearch, h, h0, hh, hsrc]
  · intro id b sr hit rest fs h h0 hh hsrc
    simp [saDetectorRuleGet, h, h0, hh, hsrc]

theorem claim_C5_witness :
    saDetectorSearch "abc" (.ok c5Resp) =
      some (.ok { Version := 2, ID := "abc",
                  Detector := normalizeSaDetector
                    [("detector", .obj [("name", .str "t1")]), ("extra", .num 1)] }) ∧
    saDetectorRuleGet "r1" (.ok ruleHitResp) =
      some (.ok { Version := 4, ID := "r1",
                  Rule := [("rule", .str "title: t"),
                           ("category", .str "cloudtrail")] }) := by
  constructor
  · exact claim_C5_amended.1 "abc" c5Resp ⟨⟨⟨1⟩, [⟨"abc", 2, some c5SourceObj⟩]⟩⟩
      ⟨"abc", 2, some c5SourceObj⟩ []
      [("detector", .obj [("name", .str "t1")]), ("extra", .num 1)]
      (by decide) (by decide) (by decide) (by decide)
  · exact claim_C5_amended.2 "r1" ruleHitResp
      ⟨⟨⟨1⟩, [⟨"r1", 4, some (.obj [("rule", .str "title: t"), ("category", .str "cloudtrail")])⟩]⟩⟩
      ⟨"r1", 4, some (.obj [("rule", .str "title: t"), ("category", .str "cloudtrail")])⟩ []
      [("rule", .str "title: t"), ("category", .str "cloudtrail")]
      (by decide) (by decide) (by decide) (by decide)

/-- Claim C6 counterexample: the detector Create POST succeeds (server
assigns `abc123`) and the read-back then fails with a transport error;
Create surfaces the error but the local ID has already been set to
`abc123`, contradicting "the local ID is never set when the create
request fails". -/
theorem claim_C6_counterexample :
    saDetectorCreate ⟨"", "cfg"⟩ (.ok c6PostBody) (.error "connection refused") =
      some (⟨"abc123", "cfg"⟩, some (.transport "connection refused")) ∧
    ("abc123" : String) ≠ "" :=
  ⟨by decide, by decide⟩

/-- Claim C6 as amended: a transport error in Create's initial POST (or
Update's PUT) leaves the local view unchanged — in particular the ID is
never set — and surfaces the error; a transport error in Update's
read-back also leaves the view unchanged; but a transport error in the
read-back Create performs after a successful POST surfaces the error with
the local ID already set to the server-assigned ID. -/
theorem claim_C6_amended :
    (∀ (st : DetectorState) (pr sr : Except String Body) (e : Err),
      resourceOpensearchPostSaDetector pr = .error e →
        saDetectorCreate st pr sr = some (st, some e)) ∧
    (∀ (st : DetectorState) (pr sr : Except String Body) (e : Err),
      resourceOpensearchPutSaDetector pr = .error e →
        saDetectorUpdate st pr sr = some (st, some e)) ∧
    (∀ (st : RuleState) (pr sr : Except String Body) (e : Err),
      resourceOpensearchPostSaDetectorRule pr = .error e →
        saDetectorRuleCreate st pr sr = some (st, some e)) ∧
    (∀ (st : DetectorState) (pr : Except String Body) (r : SaDetectorResponse) (m : String),
      resourceOpensearchPostSaDetector pr = .ok r →
        saDetectorCreate st pr (.error m) =
          some ({ st with id := r.ID }, some (.transport m))) ∧
    (∀ (st : RuleState) (pr : Except String Body) (r : SaDetectorRuleResponse) (m : String),
      resourceOpensearchPostSaDetectorRule pr = .ok r →
        saDetectorRuleCreate st pr (.error m) =
          some ({ st with id := r.ID }, some (.transport m))) ∧
    (∀ (st : DetectorState) (pr : Except String Body) (r : SaDetectorResponse) (m : String),
      resourceOpensearchPutSaDetector pr = .ok r →
        saDetectorUpdate st pr (.error m) = some (st, some (.transport m))) := by
  refine ⟨?_, ?_, ?_, ?_, ?_, ?_⟩
  · intro st pr sr e h; simp [saDetectorCreate, h]
  · intro st pr sr e h; simp [saDetectorUpdate, h]
  · intro st pr sr e h; simp [saDetectorRuleCreate, h]
  · intro st pr r m h
    simp [saDetectorCreate, h, saDetectorRead, saDetectorSearch, IsSearchNotFound]
  · intro st pr r m h
    simp [saDetectorRuleCreate, h, saDetectorRuleRead, saDetectorRuleGet, IsSearchNotFound]
  · intro st pr r m h
    simp [saDetectorUpdate, h, saDetectorRead, saDetectorSearch, IsSearchNotFound]

theorem claim_C6_witness :
    saDetectorCreate ⟨"", "c"⟩ (.error "boom") (.error "x") =
      some (⟨"", "c"⟩, some (.transport "boom")) ∧
    saDetectorRuleCreate ⟨"", none, "cat"⟩ (.ok rulePostBody) (.error "net down") =
      some (⟨"r9", none, "cat"⟩, some (.transport "net down")) := by
  constructor
  · exact claim_C6_amended.1 ⟨"", "c"⟩ (.error "boom") (.error "x")
      (.transport "boom") (by decide)
  · exact claim_C6_amended.2.2.2.2.1 ⟨"", none, "cat"⟩ (.ok rulePostBody)
      ⟨1, "r9", [("rule", .str "title: t")]⟩ "net down" (by decide)

/-- Claim C7 counterexample: a malformed search response body (`RAWBODY`)
makes the lookup fail with a decode error whose message carries only the
JSON decoder's failure, not the offending body — contradicting "every
decode error ... includes the offending response body". -/
theorem claim_C7_counterexample :
    saDetectorSearch "x" (.ok c7Bad) =
      some (.error (.decode "error unmarshalling search result: invalid character")) ∧
    strIncludes c7Bad.text
      (Err.msg (.decode "error unmarshalling search result: invalid character")) = false :=
  ⟨by decide, by decide⟩

/-- Claim C7 as amended: decode errors on create/update response bodies
(both kinds, POST and PUT) are surfaced with the offending body included
in the message; decode errors on search responses are surfaced with only
the underlying decode failure appended to a fixed prefix, without the
body. -/
theorem claim_C7_amended :
    (∀ (b : Body) (m : String),
      resourceOpensearchPostSaDetector (.ok b) = .error (.decode m) →
        strIncludes b.text m = true) ∧
    (∀ (b : Body) (m : String),
      resourceOpensearchPutSaDetector (.ok b) = .error (.decode m) →
        strIncludes b.text m = true) ∧
    (∀ (b : Body) (m : String),
      resourceOpensearchPostSaDetectorRule (.ok b) = .error (.decode m) →
        strIncludes b.text m = true) ∧
    (∀ (b : Body) (m : String),
      resourceOpensearchPutSaDetectorRule (.ok b) = .error (.decode m) →
        strIncludes b.text m = true) ∧
    (∀ (id : String) (b : Body) (e : String),
      goUnmarshalSearch b = .error e →
        saDetectorSearch id (.ok b) =
          some (.error (.decode ("error unmarshalling search result: " ++ e))) ∧
        saDetectorRuleGet id (.ok b) =
          some (.error (.decode ("error unmarshalling search result: " ++ e)))) ∧
    (∀ (id : String) (b : Body) (sr : QuerySearchResult) (hit : SearchHit)
       (rest : List SearchHit) (e : String),
      goUnmarshalSearch b = .ok sr →
      sr.Hits.Total.Value ≠ 0 →
      sr.Hits.Hits = hit :: rest →
      unmarshalObj hit.Source = .error e →
        saDetectorSearch id (.ok b) =
          some (.error (.decode ("error unmarshalling detector source: " ++ e))) ∧
        saDetectorRuleGet id (.ok b) =
          some (.error (.decode ("error unmarshalling rule source: " ++ e)))) := by
  refine ⟨?_, ?_, ?_, ?_, ?_, ?_⟩
  · intro b m h
    cases hb : (match b with
      | Body.malformed _ e => Except.error e
      | Body.json v => decodeRespWith "detector" v) with
    | error e =>
      simp [resourceOpensearchPostSaDetector, hb] at h
      rw [← h]
      exact strIncludes_tail3 "error unmarshalling detector body: " e ": " b.text
    | ok p =>
      obtain ⟨ver, pid, mm⟩ := p
      simp [resourceOpensearchPostSaDetector, hb] at h
  · intro b m h
    cases hb : (match b with
      | Body.malformed _ e => Except.error e
      | Body.json v => decodeRespWith "detector" v) with
    | error e =>
      simp [resourceOpensearchPutSaDetector, hb] at h
      rw [← h]
      exact strIncludes_tail3 "error unmarshalling detector body: " e ": " b.text
    | ok p =>
      obtain ⟨ver, pid, mm⟩ := p
      simp [resourceOpensearchPutSaDetector, hb] at h
  · intro b m h
    cases hb : (match b with
      | Body.malformed _ e => Except.error e
      | Body.json v => decodeRespWith "rule" v) with
    | error e =>
      simp [resourceOpensearchPostSaDetectorRule, hb] at h
      rw [← h]
      exact strIncludes_tail3 "error unmarshalling detector rule body: " e ": " b.text
    | ok p =>
      obtain ⟨ver, pid, mm⟩ := p
      simp [resourceOpensearchPostSaDetectorRule, hb] at h
  · intro b m h
    cases hb : (match b with
      | Body.malformed _ e => Except.error e
      | Body.json v => decodeRespWith "rule" v) with
    | error e =>
      simp [resourceOpensearchPutSaDetectorRule, hb] at h
      rw [← h]
      exact strIncludes_tail3 "error unmarshalling detector rule body: " e ": " b.text
    | ok p =>
      obtain ⟨ver, pid, mm⟩ := p
      simp [resourceOpensearchPutSaDetectorRule, hb] at h
  · intro id b e h
    exact ⟨by simp [saDetectorSearch, h], by simp [saDetectorRuleGet, h]⟩
  · intro id b sr hit rest e h h0 hh hsrc
    exact ⟨by simp [saDetectorSearch, h, h0, hh, hsrc],
           by simp [saDetectorRuleGet, h, h0, hh, hsrc]⟩

theorem claim_C7_witness :
    strIncludes (Body.text (Body.malformed "BADBODY" "unexpected end"))
      "error unmarshalling detector body: unexpected end: BADBODY" = true ∧
    saDetectorSearch "h1" (.ok badSourceResp) =
      some (.error (.decode ("error unmarshalling detector source: "
        ++ "json: cannot unmarshal value into Go value of type map[string]interface \x7b\x7d"))) ∧
    saDetectorRuleGet "h1" (.ok badSourceResp) =
      some (.error (.decode ("error unmarshalling rule source: "
        ++ "json: cannot unmarshal value into Go value of type map[string]interface \x7b\x7d"))) := by
  refine ⟨?_, ?_, ?_⟩
  · exact claim_C7_amended.1 (.malformed "BADBODY" "unexpected end")
      "error unmarshalling detector body: unexpected end: BADBODY" (by decide)
  · exact (claim_C7_amended.2.2.2.2.2 "h1" badSourceResp
      ⟨⟨⟨1⟩, [⟨"h1", 1, some (.str "nope")⟩]⟩⟩ ⟨"h1", 1, some (.str "nope")⟩ []
      "json: cannot unmarshal value into Go value of type map[string]interface \x7b\x7d"
      (by decide) (by decide) (by decide) (by decide)).1
  · exact (claim_C7_amended.2.2.2.2.2 "h1" badSourceResp
      ⟨⟨⟨1⟩, [⟨"h1", 1, some (.str "nope")⟩]⟩⟩ ⟨"h1", 1, some (.str "nope")⟩ []
      "json: cannot unmarshal value into Go value of type map[string]interface \x7b\x7d"
      (by decide) (by decide) (by decide) (by decide)).2

/-- Claim C8: every successful rule Read sets the `body` attribute to the
single field `rule["rule"]` of the returned source object (and not to the
whole object). -/
theorem claim_C8_rule_read_body :
    ∀ (st : RuleState) (resp : Except String Body) (res : SaDetectorRuleResponse),
      saDetectorRuleGet st.id resp = some (.ok res) →
        saDetectorRuleRead st resp =
          some ({ st with id := res.ID, body := jLookup res.Rule "rule" }, none) := by
  intro st resp res h
  simp [saDetectorRuleRead, h]

theorem claim_C8_witness :
    saDetectorRuleRead ⟨"r1", none, "cloudtrail"⟩ (.ok ruleHitResp) =
      some (⟨"r1", some (.str "title: t"), "cloudtrail"⟩, none) :=
  claim_C8_rule_read_body ⟨"r1", none, "cloudtrail"⟩ (.ok ruleHitResp)
    ⟨4, "r1", [("rule", .str "title: t"), ("category", .str "cloudtrail")]⟩ (by decide)

/-- Claim C9: in both lookups the access to the first hit is guarded only
by the non-zero `hits.total.value` check: on any decoded response with a
non-zero total and a non-empty hits array the lookup completes without a
panic, while a response with non-zero total and an empty hits array makes
the access out of bounds (modelled as `none`). -/
theorem claim_C9_hits_access :
    (∀ (id : String) (b : Body) (sr : QuerySearchResult),
      goUnmarshalSearch b = .ok sr →
      sr.Hits.Total.Value ≠ 0 →
      sr.Hits.Hits ≠ [] →
        (saDetectorSearch id (.ok b)).isSome = true ∧
        (saDetectorRuleGet id (.ok b)).isSome = true) ∧
    (saDetectorSearch "x" (.ok panicBody) = none ∧
     saDetectorRuleGet "x" (.ok panicBody) = none) := by
  constructor
  · intro id b sr h h0 hne
    cases hh : sr.Hits.Hits with
    | nil => exact absurd hh hne
    | cons hit rest =>
      constructor
      · simp only [saDetectorSearch, h, h0, hh]
        cases unmarshalObj hit.Source <;> simp
      · simp only [saDetectorRuleGet, h, h0, hh]
        cases unmarshalObj hit.Source <;> simp
  · exact ⟨by decide, by decide⟩

theorem claim_C9_witness :
    (saDetectorSearch "abc" (.ok c5Resp)).isSome = true ∧
    (saDetectorRuleGet "abc" (.ok c5Resp)).isSome = true :=
  claim_C9_hits_access.1 "abc" c5Resp ⟨⟨⟨1⟩, [⟨"abc", 2, some c5SourceObj⟩]⟩⟩
    (by decide) (by decide) (by decide)

/-- Claim C10: rule Read never writes the `category` attribute — whatever
the outcome (found, NotFound or error), the stored category is the one
from before the Read. -/
theorem claim_C10_category_frame :
    ∀ (st : RuleState) (resp : Except String Body) (out : RuleState × Option Err),
      saDetectorRuleRead st resp = some out → out.1.category = st.category := by
  intro st resp out h
  unfold saDetectorRuleRead at h
  cases hg : saDetectorRuleGet st.id resp with
  | none => rw [hg] at h; exact Option.noConfusion h
  | some v =>
    rw [hg] at h
    cases v with
    | error e =>
      by_cases hnf : IsSearchNotFound e = true
      · simp [hnf] at h
        rw [← h]
      · simp [hnf] at h
        rw [← h]
    | ok res =>
      simp at h
      rw [← h]

theorem claim_C10_witness :
    ((⟨"r1", some (.str "title: t"), "cloudtrail"⟩ : RuleState), (none : Option Err)).1.category
      = (⟨"r1", none, "cloudtrail"⟩ : RuleState).category :=
  claim_C10_category_frame ⟨"r1", none, "cloudtrail"⟩ (.ok ruleHitResp)
    (⟨"r1", some (.str "title: t"), "cloudtrail"⟩, none) (by decide)

end SaProvider
